import Mathlib

/-!
Verification of the conversation-history management code in
`content/05_openai_chatbot_lab.ipynb`.

The notebook manages an ordered list of role-tagged chat messages.  The
external completion service (`client.chat.completions.create`) is modelled as
a function parameter: a blocking collaborator returns either a `ServiceError`
(a raised exception in Python) or a `CompletionResponse`, and a streaming
collaborator returns the finite sequence of chunk contents it yielded
(`chunk.choices[0].delta.content`, possibly `None`) together with an optional
`ServiceError` raised after those chunks.

The notebook's global mutable lists (`conversation_memory`,
`streaming_conversation`) are threaded explicitly: each operation takes the
current history and returns the history as it stands when the operation
finishes, normally or by a raised error.
-/

/-- The message roles used by the notebook. -/
inductive Role where
  | system
  | user
  | assistant
  deriving DecidableEq, Repr

/-- A chat message: `{"role": ..., "content": ...}`. -/
structure Message where
  role : Role
  content : String
  deriving DecidableEq, Repr

instance : Inhabited Message := ⟨⟨Role.system, ""⟩⟩

/-- Error categories the external completion service can raise
(authentication failure, rate limit, context length exceeded, network). -/
inductive ServiceError where
  | authentication
  | rateLimited
  | contextLengthExceeded
  | network
  deriving DecidableEq, Repr

/-- Token usage statistics attached to a completion response
(`response.usage.prompt_tokens` and so on). -/
structure Usage where
  prompt_tokens : Nat
  completion_tokens : Nat
  total_tokens : Nat
  deriving DecidableEq, Repr

/-- The parts of a completion response the notebook reads:
`response.choices[0].message.content` and `response.usage`. -/
structure CompletionResponse where
  text : String
  usage : Usage
  deriving DecidableEq, Repr

/-- Python slice `l[i:]` for an arbitrary integer index `i`: a non-negative
start drops that many elements (clamped at the length), a negative start
counts from the end, clamped at the front. -/
def pySliceFrom (l : List Message) (i : Int) : List Message :=
  if 0 ≤ i then l.drop i.toNat
  else l.drop ((l.length : Int) + i).toNat

/-- The notebook function `trim_conversation(messages, max_messages)`:

    if len(messages) > max_messages + 1:
        system_message = messages[0]
        recent_messages = messages[-(max_messages):]
        return [system_message] + recent_messages
    return messages

`max_messages` is an `Int`, as in Python (the notebook's default is 10).
`messages.headI` is `messages[0]`; every theorem below that reaches this
branch does so with a nonempty `messages`, matching Python, where
`messages[0]` on an empty list would raise. -/
def trim_conversation (messages : List Message) (max_messages : Int) : List Message :=
  if (messages.length : Int) > max_messages + 1 then
    messages.headI :: pySliceFrom messages (-max_messages)
  else
    messages

/-- The notebook function `summarize_conversation(messages)`: send the system
instruction `"Summarize this conversation concisely."` followed by the whole
message list to the completion service, then replace everything after the
leading system message with one synthetic system message carrying
`f"Previous conversation summary: {summary}"`.  A raised `ServiceError`
propagates unchanged. -/
def summarize_conversation
    (complete : List Message → Except ServiceError CompletionResponse)
    (messages : List Message) : Except ServiceError (List Message) :=
  match complete (⟨Role.system, "Summarize this conversation concisely."⟩ :: messages) with
  | Except.error e => Except.error e
  | Except.ok summary_request =>
      Except.ok [messages.headI,
        ⟨Role.system, "Previous conversation summary: " ++ summary_request.text⟩]

/-- The notebook function `chat_with_memory(user_message)`, with the global
`conversation_memory` threaded explicitly and the completion service passed
as `complete`.  The notebook appends the user message, calls the service on
the whole history, appends the assistant response, and returns the pair
`(assistant_response, response.usage.total_tokens)`.  If the service raises,
the exception propagates after the user message was appended but before any
assistant message is appended; the first component of the result is the
history as it stands at that point. -/
def chat_with_memory
    (complete : List Message → Except ServiceError CompletionResponse)
    (conversation_memory : List Message) (user_message : String) :
    List Message × Except ServiceError (String × Nat) :=
  let conversation_memory := conversation_memory ++ [⟨Role.user, user_message⟩]
  match complete conversation_memory with
  | Except.error e => (conversation_memory, Except.error e)
  | Except.ok response =>
      let assistant_response := response.text
      (conversation_memory ++ [⟨Role.assistant, assistant_response⟩],
       Except.ok (assistant_response, response.usage.total_tokens))

/-- What one call to the streaming completion service produces: the chunk
contents it yielded in order (`chunk.choices[0].delta.content`, which may be
`None`), and, after those chunks, either normal exhaustion (`err = none`) or
a raised `ServiceError` (`err = some e`). -/
structure StreamResult where
  chunks : List (Option String)
  err : Option ServiceError
  deriving DecidableEq, Repr

/-- The notebook's accumulation loop over a stream:

    assistant_response = ""
    for chunk in stream:
        if chunk.choices[0].delta.content is not None:
            assistant_response += chunk.choices[0].delta.content

`None` contents are skipped; the rest are appended in arrival order. -/
def accumulate_chunks (chunks : List (Option String)) : String :=
  chunks.foldl
    (fun assistant_response c =>
      match c with
      | some content_chunk => assistant_response ++ content_chunk
      | none => assistant_response)
    ""

/-- The notebook function `stream_chat_with_memory(user_message)`, with the
global `streaming_conversation` threaded explicitly and the streaming
service passed as `completeStream`.  The user message is appended, the
stream is consumed into a local `assistant_response`, and only after the
stream is exhausted without error is the assistant message appended.  If
the stream raises (`err = some e`), the loop's local accumulator is
discarded, nothing is appended, and the error propagates with the history
holding only the appended user message. -/
def stream_chat_with_memory
    (completeStream : List Message → StreamResult)
    (streaming_conversation : List Message) (user_message : String) :
    List Message × Except ServiceError String :=
  let streaming_conversation := streaming_conversation ++ [⟨Role.user, user_message⟩]
  let stream := completeStream streaming_conversation
  let assistant_response := accumulate_chunks stream.chunks
  match stream.err with
  | some e => (streaming_conversation, Except.error e)
  | none =>
      (streaming_conversation ++ [⟨Role.assistant, assistant_response⟩],
       Except.ok assistant_response)

/-- The explicit ordered concatenation `f1 ++ f2 ++ ... ++ fn` of a fragment
sequence, as the spec states the streaming law. -/
def concat_fragments : List String → String
  | [] => ""
  | f :: fs => f ++ concat_fragments fs

/-! ## Helper lemmas -/

/-- For any positive threshold `k`, trimming a nonempty history keeps the
head and the last `k` elements of the tail (all of the tail when it is
shorter than `k`). -/
lemma trim_conversation_pos_eq (sys : Message) (tail : List Message) (k : Int)
    (hk : 1 ≤ k) :
    trim_conversation (sys :: tail) k = sys :: tail.drop (tail.length - k.toNat) := by
  rw [trim_conversation, pySliceFrom]
  by_cases h : (((sys :: tail).length : Nat) : Int) > k + 1
  · rw [if_pos h]
    have h0 : ¬ (0 ≤ -k) := by omega
    rw [if_neg h0]
    have hlen : (((sys :: tail).length : Int) + -k).toNat = (tail.length - k.toNat) + 1 := by
      simp only [List.length_cons] at h ⊢
      omega
    rw [hlen]
    simp
  · rw [if_neg h]
    have hd : tail.length - k.toNat = 0 := by
      simp only [List.length_cons] at h
      omega
    rw [hd, List.drop_zero]

lemma trim_conversation_zero (messages : List Message) (h : 1 < messages.length) :
    trim_conversation messages 0 = messages.headI :: messages := by
  rw [trim_conversation, if_pos (by exact_mod_cast h)]
  simp [pySliceFrom]

lemma trim_conversation_neg_one (messages : List Message) :
    trim_conversation messages (-1) = messages := by
  cases messages with
  | nil => rfl
  | cons m0 rest =>
      rw [trim_conversation, if_pos (by simp only [List.length_cons]; omega)]
      simp [pySliceFrom]

/-! ## Claim theorems for the trim policy -/

/-- C1 counterexample: with threshold 0 the trim policy does not keep the
length at or below `k + 1` and does not return the system message followed
by the last 0 elements of the tail — the two-message history grows to three
messages with the system message duplicated. -/
theorem trim_window_contract_cex :
    trim_conversation
        [⟨Role.system, "You are a helpful assistant."⟩, ⟨Role.user, "Hi"⟩] 0 =
      [⟨Role.system, "You are a helpful assistant."⟩,
       ⟨Role.system, "You are a helpful assistant."⟩, ⟨Role.user, "Hi"⟩] ∧
    ¬ (trim_conversation
        [⟨Role.system, "You are a helpful assistant."⟩, ⟨Role.user, "Hi"⟩] 0).length ≤ 0 + 1 := by
  decide

/-- C1 (amended to positive thresholds): for every history headed by the
system message and every threshold `k ≥ 1`, `trim_conversation` returns at
most `k + 1` messages, the head is unchanged, the rest is exactly the last
`k` elements of the tail in their original order, and a history of length
at most `k + 1` is returned unchanged. -/
theorem trim_window_contract (sys : Message) (tail : List Message) (k : Int)
    (hk : 1 ≤ k) :
    (trim_conversation (sys :: tail) k).length ≤ k.toNat + 1 ∧
    trim_conversation (sys :: tail) k = sys :: tail.drop (tail.length - k.toNat) ∧
    (((sys :: tail).length : Int) ≤ k + 1 → trim_conversation (sys :: tail) k = sys :: tail) := by
  have e := trim_conversation_pos_eq sys tail k hk
  refine ⟨?_, e, ?_⟩
  · rw [e]
    simp only [List.length_cons, List.length_drop]
    omega
  · intro hle
    rw [e]
    have hd : tail.length - k.toNat = 0 := by
      simp only [List.length_cons] at hle
      omega
    rw [hd, List.drop_zero]

/-- C1 witness, at the spec's scenario: a history of 1 system message plus
12 user messages trimmed with `k = 10` keeps the system message plus the
last 10 of the 12. -/
theorem trim_window_contract_witness :
    (1 : Int) ≤ 10 ∧
    ((trim_conversation
        (⟨Role.system, "s"⟩ :: (List.range 12).map (fun i => ⟨Role.user, toString i⟩)) 10).length ≤
      (10 : Int).toNat + 1 ∧
    trim_conversation
        (⟨Role.system, "s"⟩ :: (List.range 12).map (fun i => ⟨Role.user, toString i⟩)) 10 =
      ⟨Role.system, "s"⟩ ::
        ((List.range 12).map (fun i => (⟨Role.user, toString i⟩ : Message))).drop
          (((List.range 12).map (fun i => (⟨Role.user, toString i⟩ : Message))).length - (10 : Int).toNat) ∧
    ((((⟨Role.system, "s"⟩ : Message) :: (List.range 12).map (fun i => ⟨Role.user, toString i⟩)).length : Int) ≤ 10 + 1 →
      trim_conversation
          (⟨Role.system, "s"⟩ :: (List.range 12).map (fun i => ⟨Role.user, toString i⟩)) 10 =
        ⟨Role.system, "s"⟩ :: (List.range 12).map (fun i => ⟨Role.user, toString i⟩))) :=
  ⟨by decide,
   trim_window_contract ⟨Role.system, "s"⟩
     ((List.range 12).map (fun i => ⟨Role.user, toString i⟩)) 10 (by decide)⟩

/-- C8 counterexample: with threshold 0, applying the trim policy twice is
not the same as applying it once — each application prepends another copy of
the head. -/
theorem trim_idempotent_cex :
    trim_conversation (trim_conversation [⟨Role.system, "sys"⟩, ⟨Role.user, "m1"⟩] 0) 0 ≠
      trim_conversation [⟨Role.system, "sys"⟩, ⟨Role.user, "m1"⟩] 0 := by
  decide

/-- C8 (amended to positive thresholds): for every history and every
threshold `k ≥ 1`, applying the trim policy twice with the same `k` yields
the same result as applying it once, including when the first application
actually trims. -/
theorem trim_idempotent (H : List Message) (k : Int) (hk : 1 ≤ k) :
    trim_conversation (trim_conversation H k) k = trim_conversation H k := by
  cases H with
  | nil =>
      have h : ¬ ((([] : List Message).length : Int) > k + 1) := by
        simp only [List.length_nil]
        omega
      have e : trim_conversation ([] : List Message) k = [] := by
        rw [trim_conversation, if_neg h]
      rw [e]
      exact e
  | cons sys tail =>
      rw [trim_conversation_pos_eq sys tail k hk,
        trim_conversation_pos_eq sys _ k hk]
      have hd : (tail.drop (tail.length - k.toNat)).length - k.toNat = 0 := by
        simp only [List.length_drop]
        omega
      rw [hd, List.drop_zero]

/-- C8 witness: a 13-message history trimmed at `k = 10` is trimmed once;
trimming the result again leaves it unchanged. -/
theorem trim_idempotent_witness :
    (1 : Int) ≤ 10 ∧
    trim_conversation
        (trim_conversation
          (⟨Role.system, "s"⟩ :: (List.range 12).map (fun i => ⟨Role.assistant, toString i⟩)) 10) 10 =
      trim_conversation
        (⟨Role.system, "s"⟩ :: (List.range 12).map (fun i => ⟨Role.assistant, toString i⟩)) 10 :=
  ⟨by decide,
   trim_idempotent
     (⟨Role.system, "s"⟩ :: (List.range 12).map (fun i => ⟨Role.assistant, toString i⟩)) 10
     (by decide)⟩

/-- C9 counterexample: nothing in the code rejects a non-positive
`max_messages` — `trim_conversation` runs with `max_messages = 0` (and
returns a grown history) and with `max_messages = -1` (and returns the
input), rather than failing with a configuration error. -/
theorem configuration_validation_cex :
    trim_conversation [⟨Role.system, "base"⟩, ⟨Role.user, "u1"⟩] 0 =
      [⟨Role.system, "base"⟩, ⟨Role.system, "base"⟩, ⟨Role.user, "u1"⟩] ∧
    trim_conversation [⟨Role.system, "base"⟩, ⟨Role.user, "u1"⟩] (-1) =
      [⟨Role.system, "base"⟩, ⟨Role.user, "u1"⟩] := by
  decide

/-- C9 (amended): the code has no configuration-time validation and no
configuration error; `trim_conversation` accepts non-positive thresholds and
produces a result — with threshold 0 the history grows by one message, and
with threshold -1 a multi-message history is returned unchanged. -/
theorem configuration_validation_absent (messages : List Message)
    (h : 1 < messages.length) :
    (trim_conversation messages 0).length = messages.length + 1 ∧
    trim_conversation messages (-1) = messages := by
  refine ⟨?_, trim_conversation_neg_one messages⟩
  rw [trim_conversation_zero messages h]
  simp

/-- C9 witness at a concrete two-message history. -/
theorem configuration_validation_absent_witness :
    (trim_conversation [⟨Role.system, "w"⟩, ⟨Role.user, "x"⟩] 0).length =
      ([⟨Role.system, "w"⟩, ⟨Role.user, "x"⟩] : List Message).length + 1 ∧
    trim_conversation [⟨Role.system, "w"⟩, ⟨Role.user, "x"⟩] (-1) =
      [⟨Role.system, "w"⟩, ⟨Role.user, "x"⟩] :=
  configuration_validation_absent [⟨Role.system, "w"⟩, ⟨Role.user, "x"⟩] (by decide)

/-- C10: with `max_messages = 0` the Python slice `messages[-(0):]` is the
whole list, so trimming a history of more than one message returns
`[messages[0]] ++ messages`: one element longer than the input, with the
leading message duplicated in positions 0 and 1. -/
theorem trim_zero_grows (messages : List Message) (h : 1 < messages.length) :
    trim_conversation messages 0 = messages.headI :: messages ∧
    (trim_conversation messages 0).length = messages.length + 1 ∧
    (trim_conversation messages 0)[0]? = (trim_conversation messages 0)[1]? := by
  have e := trim_conversation_zero messages h
  match messages, h, e with
  | m0 :: m1 :: rest, _, e =>
      refine ⟨e, ?_, ?_⟩
      · rw [e]
        simp
      · rw [e]
        rfl

/-- C10 witness at a concrete two-message history. -/
theorem trim_zero_grows_witness :
    trim_conversation [⟨Role.system, "g"⟩, ⟨Role.user, "h"⟩] 0 =
      ([⟨Role.system, "g"⟩, ⟨Role.user, "h"⟩] : List Message).headI ::
        [⟨Role.system, "g"⟩, ⟨Role.user, "h"⟩] ∧
    (trim_conversation [⟨Role.system, "g"⟩, ⟨Role.user, "h"⟩] 0).length =
      ([⟨Role.system, "g"⟩, ⟨Role.user, "h"⟩] : List Message).length + 1 ∧
    (trim_conversation [⟨Role.system, "g"⟩, ⟨Role.user, "h"⟩] 0)[0]? =
      (trim_conversation [⟨Role.system, "g"⟩, ⟨Role.user, "h"⟩] 0)[1]? :=
  trim_zero_grows [⟨Role.system, "g"⟩, ⟨Role.user, "h"⟩] (by decide)

/-! ## Claim theorems for the memory-managing chat operations -/

/-- A collaborator that always raises a rate-limit error. -/
def rate_limited_stub : List Message → Except ServiceError CompletionResponse :=
  fun _ => Except.error ServiceError.rateLimited

/-- A streaming collaborator that yields one fragment and then raises. -/
def failing_stream_stub : List Message → StreamResult :=
  fun _ => ⟨[some "partial answ"], some ServiceError.rateLimited⟩

/-- C2: if the collaborator raises a `ServiceError` during a turn — in the
blocking call or at any point of the streamed fragment sequence — no
assistant message is appended: the resulting history is exactly the input
history with only the user turn appended, the error propagates, and the
accumulated stream fragments are discarded. -/
theorem service_error_no_mutation
    (memory : List Message) (user_message : String)
    (complete : List Message → Except ServiceError CompletionResponse)
    (completeStream : List Message → StreamResult)
    (chunks : List (Option String)) (e : ServiceError)
    (hc : complete (memory ++ [⟨Role.user, user_message⟩]) = Except.error e)
    (hs : completeStream (memory ++ [⟨Role.user, user_message⟩]) = ⟨chunks, some e⟩) :
    chat_with_memory complete memory user_message =
      (memory ++ [⟨Role.user, user_message⟩], Except.error e) ∧
    stream_chat_with_memory completeStream memory user_message =
      (memory ++ [⟨Role.user, user_message⟩], Except.error e) := by
  constructor
  · simp only [chat_with_memory, hc]
  · simp only [stream_chat_with_memory, hs]

/-- C2 witness: concrete failing collaborators leave only the user turn in
the history. -/
theorem service_error_no_mutation_witness :
    chat_with_memory rate_limited_stub [⟨Role.system, "s"⟩] "Hi" =
      ([⟨Role.system, "s"⟩, ⟨Role.user, "Hi"⟩], Except.error ServiceError.rateLimited) ∧
    stream_chat_with_memory failing_stream_stub [⟨Role.system, "s"⟩] "Hi" =
      ([⟨Role.system, "s"⟩, ⟨Role.user, "Hi"⟩], Except.error ServiceError.rateLimited) :=
  service_error_no_mutation [⟨Role.system, "s"⟩] "Hi" rate_limited_stub failing_stream_stub
    [some "partial answ"] ServiceError.rateLimited rfl rfl

/-- A collaborator that always succeeds with a fixed greeting. -/
def greeting_stub : List Message → Except ServiceError CompletionResponse :=
  fun _ => Except.ok ⟨"Hello there!", ⟨12, 4, 16⟩⟩

/-- C3: when the collaborator call succeeds, the text `chat_with_memory`
returns equals the content of the last element of the updated history, and
that element's role is assistant. -/
theorem assistant_text_matches_history
    (memory : List Message) (user_message : String)
    (complete : List Message → Except ServiceError CompletionResponse)
    (t : String) (n : Nat)
    (h : (chat_with_memory complete memory user_message).2 = Except.ok (t, n)) :
    (chat_with_memory complete memory user_message).1.getLast? =
      some ⟨Role.assistant, t⟩ := by
  cases hc : complete (memory ++ [⟨Role.user, user_message⟩]) with
  | error e => simp [chat_with_memory, hc] at h
  | ok resp =>
      simp only [chat_with_memory, hc, Except.ok.injEq, Prod.mk.injEq] at h ⊢
      rw [List.getLast?_concat, h.1]

/-- C3 witness at a concrete succeeding collaborator. -/
theorem assistant_text_matches_history_witness :
    (chat_with_memory greeting_stub [⟨Role.system, "s"⟩] "Hey").1.getLast? =
      some ⟨Role.assistant, "Hello there!"⟩ :=
  assistant_text_matches_history [⟨Role.system, "s"⟩] "Hey" greeting_stub
    "Hello there!" 16 rfl

/-- A collaborator whose reply reveals how many messages it was given. -/
def length_probe : List Message → Except ServiceError CompletionResponse :=
  fun messages => Except.ok ⟨toString messages.length, ⟨0, 0, messages.length⟩⟩

/-- A 13-message history: the system message plus 12 user messages. -/
def long_history : List Message :=
  ⟨Role.system, "You are a helpful assistant."⟩ ::
    (List.range 12).map (fun i => (⟨Role.user, toString i⟩ : Message))

/-- C4 counterexample: on a history long enough that the trim policy at
threshold 10 would reduce the 14 outgoing messages to 11,
`chat_with_memory` still hands the collaborator all 14 messages — the
length-probing collaborator reports 14, not 11. -/
theorem window_policy_not_applied_cex :
    (long_history ++ [(⟨Role.user, "Q"⟩ : Message)]).length = 14 ∧
    (trim_conversation (long_history ++ [(⟨Role.user, "Q"⟩ : Message)]) 10).length = 11 ∧
    (chat_with_memory length_probe long_history "Q").2 = Except.ok ("14", 14) :=
  ⟨rfl, rfl, rfl⟩

/-- C4 (amended): `chat_with_memory` applies no window policy at all — for
every history and user text it hands the collaborator the full history with
only the user turn appended, so a length-probing collaborator always
observes `memory.length + 1` messages, however long the history is. -/
theorem window_policy_not_applied (memory : List Message) (user_message : String) :
    (chat_with_memory length_probe memory user_message).2 =
      Except.ok (toString (memory.length + 1), memory.length + 1) := by
  simp [chat_with_memory, length_probe]

/-- The accumulation loop applied to any starting accumulator prepends that
accumulator to the ordered concatenation of the non-`None` chunk contents. -/
lemma foldl_accumulate (chunks : List (Option String)) :
    ∀ acc : String,
      chunks.foldl
        (fun assistant_response c =>
          match c with
          | some content_chunk => assistant_response ++ content_chunk
          | none => assistant_response) acc =
      acc ++ concat_fragments (chunks.filterMap id) := by
  induction chunks with
  | nil =>
      intro acc
      simp [concat_fragments, String.append_empty]
  | cons c rest ih =>
      intro acc
      cases c with
      | none => simpa using ih acc
      | some s =>
          simp only [List.foldl_cons, List.filterMap_cons_some, concat_fragments, ih,
            String.append_assoc]

/-- The notebook's stream loop computes exactly the ordered concatenation of
the fragments the stream yielded. -/
lemma accumulate_chunks_eq_concat (chunks : List (Option String)) :
    accumulate_chunks chunks = concat_fragments (chunks.filterMap id) := by
  rw [accumulate_chunks, foldl_accumulate]
  simp

/-- A streaming collaborator that yields fragments interleaved with
content-less chunks and ends normally. -/
def three_fragment_stream : List Message → StreamResult :=
  fun _ => ⟨[some "The three ", none, some "laws", some "."], none⟩

/-- C5: when the stream ends without failure, the assistant message that
`stream_chat_with_memory` appends — and the text it returns — is the ordered
concatenation of the yielded fragments, appended as a single message after
the user turn once the sequence is exhausted. -/
theorem streaming_concatenation
    (memory : List Message) (user_message : String)
    (completeStream : List Message → StreamResult)
    (chunks : List (Option String))
    (h : completeStream (memory ++ [⟨Role.user, user_message⟩]) = ⟨chunks, none⟩) :
    stream_chat_with_memory completeStream memory user_message =
      (memory ++ [⟨Role.user, user_message⟩,
        ⟨Role.assistant, concat_fragments (chunks.filterMap id)⟩],
       Except.ok (concat_fragments (chunks.filterMap id))) := by
  simp [stream_chat_with_memory, h, accumulate_chunks_eq_concat]

/-- C5 witness: fragments "The three ", "laws", "." concatenate, in order,
to the single appended assistant message "The three laws.". -/
theorem streaming_concatenation_witness :
    concat_fragments (([some "The three ", none, some "laws", some "."].filterMap id)) =
      "The three laws." ∧
    stream_chat_with_memory three_fragment_stream [⟨Role.system, "s"⟩] "Robotics?" =
      ([⟨Role.system, "s"⟩, ⟨Role.user, "Robotics?"⟩,
        ⟨Role.assistant,
          concat_fragments (([some "The three ", none, some "laws", some "."].filterMap id))⟩],
       Except.ok (concat_fragments (([some "The three ", none, some "laws", some "."].filterMap id)))) :=
  ⟨by decide,
   streaming_concatenation [⟨Role.system, "s"⟩] "Robotics?" three_fragment_stream
     [some "The three ", none, some "laws", some "."] rfl⟩

/-- A collaborator that produces a fixed summary. -/
def summary_stub : List Message → Except ServiceError CompletionResponse :=
  fun _ => Except.ok ⟨"They discussed space.", ⟨40, 6, 46⟩⟩

/-- C6: on a history headed by the system message, when the collaborator —
called with the instruction "Summarize this conversation concisely."
followed by the full message list — succeeds, `summarize_conversation`
returns exactly two messages: the original leading system message, then one
synthetic system message reading "Previous conversation summary: " followed
by the collaborator's summary text. -/
theorem summarize_replaces_tail
    (sys : Message) (rest : List Message)
    (complete : List Message → Except ServiceError CompletionResponse)
    (resp : CompletionResponse)
    (h : complete (⟨Role.system, "Summarize this conversation concisely."⟩ :: sys :: rest) =
      Except.ok resp) :
    summarize_conversation complete (sys :: rest) =
      Except.ok [sys, ⟨Role.system, "Previous conversation summary: " ++ resp.text⟩] := by
  simp [summarize_conversation, h]

/-- C6 witness at a three-message history and a stub summarizer. -/
theorem summarize_replaces_tail_witness :
    summarize_conversation summary_stub
        [⟨Role.system, "s"⟩, ⟨Role.user, "q"⟩, ⟨Role.assistant, "a"⟩] =
      Except.ok [⟨Role.system, "s"⟩,
        ⟨Role.system, "Previous conversation summary: " ++ "They discussed space."⟩] :=
  summarize_replaces_tail ⟨Role.system, "s"⟩ [⟨Role.user, "q"⟩, ⟨Role.assistant, "a"⟩]
    summary_stub ⟨"They discussed space.", ⟨40, 6, 46⟩⟩ rfl

/-- A collaborator reporting usage 5 prompt + 3 completion = 8 total. -/
def usage_stub_a : List Message → Except ServiceError CompletionResponse :=
  fun _ => Except.ok ⟨"Hello!", ⟨5, 3, 8⟩⟩

/-- A collaborator reporting usage 4 prompt + 4 completion = 8 total. -/
def usage_stub_b : List Message → Except ServiceError CompletionResponse :=
  fun _ => Except.ok ⟨"Hello!", ⟨4, 4, 8⟩⟩

/-- C7 counterexample: two collaborators whose usage reports differ
({5,3,8} versus {4,4,8}) produce identical `chat_with_memory` results — the
caller receives only the number 8, so the complete usage report is not
forwarded. -/
theorem usage_report_not_forwarded_cex :
    usage_stub_a [⟨Role.system, "s"⟩, ⟨Role.user, "Hi"⟩] ≠
      usage_stub_b [⟨Role.system, "s"⟩, ⟨Role.user, "Hi"⟩] ∧
    chat_with_memory usage_stub_a [⟨Role.system, "s"⟩] "Hi" =
      chat_with_memory usage_stub_b [⟨Role.system, "s"⟩] "Hi" ∧
    (chat_with_memory usage_stub_a [⟨Role.system, "s"⟩] "Hi").2 =
      Except.ok ("Hello!", 8) := by
  refine ⟨?_, rfl, rfl⟩
  intro h
  simp [usage_stub_a, usage_stub_b] at h

/-- C7 (amended): of the collaborator's usage report, `chat_with_memory`
forwards only `total_tokens`, alongside the assistant text; the history
gains the user turn and the assistant turn. -/
theorem total_tokens_forwarded
    (memory : List Message) (user_message : String)
    (complete : List Message → Except ServiceError CompletionResponse)
    (resp : CompletionResponse)
    (h : complete (memory ++ [⟨Role.user, user_message⟩]) = Except.ok resp) :
    chat_with_memory complete memory user_message =
      (memory ++ [⟨Role.user, user_message⟩, ⟨Role.assistant, resp.text⟩],
       Except.ok (resp.text, resp.usage.total_tokens)) := by
  simp [chat_with_memory, h]

/-- C7 witness, at the spec's scenario: the stub returns "Hello!" with
usage {5,3,8}; the result history is the system message, the user turn
"Hi", and the assistant turn "Hello!", and the forwarded figure is 8. -/
theorem total_tokens_forwarded_witness :
    chat_with_memory usage_stub_a [⟨Role.system, "You are a helpful assistant."⟩] "Hi" =
      ([⟨Role.system, "You are a helpful assistant."⟩, ⟨Role.user, "Hi"⟩,
        ⟨Role.assistant, "Hello!"⟩],
       Except.ok ("Hello!", 8)) :=
  total_tokens_forwarded [⟨Role.system, "You are a helpful assistant."⟩] "Hi" usage_stub_a
    ⟨"Hello!", ⟨5, 3, 8⟩⟩ rfl
